import Mathlib

/-!
Verification of the core data pipeline of a browser single-page application
for finding student restaurants (fetch, filter, sort, render restaurant
cards; daily/weekly menu viewing; session restore; centralized API client).

The JavaScript source is shallowly embedded below.  Conventions:
* JS arrays become List, JS objects become structures, absent/null fields
  become Option.
* ECMAScript Array.prototype.sort with a comparator is required to be stable;
  it is modelled as a stable insertion sort (sortLe) where le a b stands for
  comparator(a, b) <= 0, and an element is inserted in front of the first
  already-placed element it may precede.  For a consistent comparator this is
  exactly the unique stable sorted order mandated by the standard; for an
  inconsistent comparator (which arises here only when a restaurant lacks
  coordinates) ECMAScript leaves the order implementation-defined and the
  model realizes one permissible outcome.
* JS numbers in the haversine computation are idealized as real numbers.
* Effects (DOM writes, alert popups, console logging, localStorage) are made
  explicit: rendered views become inductive values, alert/log messages are
  returned as lists of strings, and localStorage is an explicit record.
-/

/-- Stable insertion used to model ECMAScript Array.prototype.sort: the
element a (which originally precedes every element of the already sorted
tail) is placed in front of the first element b with comparator(a,b) <= 0,
encoded as le a b = true. -/
def insertLe {α : Type} (le : α → α → Bool) (a : α) : List α → List α
  | [] => [a]
  | b :: l => if le a b then a :: b :: l else b :: insertLe le a l

/-- Stable sort modelling Array.prototype.sort(comparator) (ECMA-262 requires
sort-order stability): successive elements of the input are stably inserted
into the sorted remainder. -/
def sortLe {α : Type} (le : α → α → Bool) : List α → List α
  | [] => []
  | x :: xs => insertLe le x (sortLe le xs)

/-- Restaurant record as fetched from the REST API.  The location field holds
the GeoJSON coordinate pair in [longitude, latitude] order, and is absent for
restaurants without coordinates (the code guards with
r.location?.coordinates). -/
structure Restaurant where
  _id : String
  name : String
  address : String
  city : String
  company : String
  location : Option (ℝ × ℝ)

/-- User profile cached by the client; favouriteRestaurant is an optional
restaurant identifier (none models null/undefined). -/
structure User where
  username : String
  email : Option String
  favouriteRestaurant : Option String
  avatar : Option String

/-- Degrees to radians, from the source: x * Math.PI / 180. -/
noncomputable def toRad (x : ℝ) : ℝ := x * Real.pi / 180

/-- Math.atan2(y, x), the angle of the point (x, y), embedded over the
reals following the IEEE/ECMAScript case analysis for finite inputs. -/
noncomputable def atan2 (y x : ℝ) : ℝ :=
  if 0 < x then Real.arctan (y / x)
  else if x < 0 then
    (if 0 ≤ y then Real.arctan (y / x) + Real.pi else Real.arctan (y / x) - Real.pi)
  else if 0 < y then Real.pi / 2
  else if y < 0 then -(Real.pi / 2)
  else 0

/-- Intermediate value a of the source haversine, with dLat = toRad
(lat2 - lat1) and dLon = toRad (lon2 - lon1):
a = sin(dLat/2)^2 + cos(toRad lat1) * cos(toRad lat2) * sin(dLon/2)^2. -/
noncomputable def havA (lat1 lon1 lat2 lon2 : ℝ) : ℝ :=
  Real.sin (toRad (lat2 - lat1) / 2) ^ 2 +
    Real.cos (toRad lat1) * Real.cos (toRad lat2) *
      Real.sin (toRad (lon2 - lon1) / 2) ^ 2

/-- Function haversine(lat1, lon1, lat2, lon2) from the source: great-circle
distance in kilometres with Earth radius R = 6371, as
R * 2 * atan2(sqrt a, sqrt (1 - a)) with the intermediate a of havA. -/
noncomputable def haversine (lat1 lon1 lat2 lon2 : ℝ) : ℝ :=
  6371 * 2 * atan2 (Real.sqrt (havA lat1 lon1 lat2 lon2))
    (Real.sqrt (1 - havA lat1 lon1 lat2 lon2))

/-- Truthy favourite of the optional current user: the sort branch of
renderRestaurants is guarded by currentUser?.favouriteRestaurant, which is
falsy for a missing user, a missing field, or an empty string. -/
def favOf : Option User → Option String
  | none => none
  | some u =>
    match u.favouriteRestaurant with
    | none => none
    | some f => if f = "" then none else some f

/-- Favourite-first comparator of renderRestaurants, as the relation
comparator(a,b) <= 0.  The source comparator returns -1 when a is the
favourite, 1 when b is, else 0; so it is <= 0 iff a is the favourite or b is
not. -/
def favLe (f : String) (a b : Restaurant) : Bool :=
  decide (a._id = f) || !(decide (b._id = f))

/-- Haversine distance of a restaurant from the user location (lat, lng),
destructuring the [lng, lat] coordinate pair as in the source; the value for
a restaurant without coordinates is irrelevant (the comparator guards that
case) and is set to 0. -/
noncomputable def restDist (loc : ℝ × ℝ) (r : Restaurant) : ℝ :=
  match r.location with
  | some p => haversine loc.1 loc.2 p.2 p.1
  | none => 0

/-- Distance comparator of renderRestaurants, as the relation
comparator(a,b) <= 0.  The source returns 0 (so <= 0 holds) whenever either
restaurant lacks coordinates, otherwise distA - distB, which is <= 0 iff
distA <= distB. -/
noncomputable def distLe (loc : ℝ × ℝ) (a b : Restaurant) : Bool :=
  a.location.isNone || b.location.isNone ||
    decide (restDist loc a ≤ restDist loc b)

/-- Sort policy of renderRestaurants: if the current user has a truthy
favourite, sort with the favourite-first comparator (ignoring location);
else if a location is known, sort with the distance comparator; else keep
the input order. -/
noncomputable def sortedForRender (user : Option User) (loc : Option (ℝ × ℝ))
    (list : List Restaurant) : List Restaurant :=
  match favOf user, loc with
  | some f, _ => sortLe (favLe f) list
  | none, some lc => sortLe (distLe lc) list
  | none, none => list

/-- Content of the restaurant-list container after a render. -/
inductive ListView where
  | loadingMsg
  | noResultsMsg
  | cards (rs : List Restaurant)
  | errorMsg

/-- Function renderRestaurants(list): the card container shows the sorted
cards, or the no-results placeholder when the list is empty. -/
noncomputable def renderRestaurants (user : Option User) (loc : Option (ℝ × ℝ))
    (list : List Restaurant) : ListView :=
  let sorted := sortedForRender user loc list
  if sorted.isEmpty then ListView.noResultsMsg else ListView.cards sorted

/-- Substring containment, modelling String.prototype.includes. -/
def strIncludes (s pat : String) : Bool :=
  decide (List.IsInfix pat.toList s.toList)

/-- City filter step of filterAndRender: applied only when the select value
is truthy (non-empty), keeping restaurants with r.city === value. -/
def applyCityFilter (c : String) (l : List Restaurant) : List Restaurant :=
  if c = "" then l else l.filter (fun r => decide (r.city = c))

/-- Provider filter step of filterAndRender: applied only when the select
value is truthy, keeping restaurants with r.company === value. -/
def applyProviderFilter (p : String) (l : List Restaurant) : List Restaurant :=
  if p = "" then l else l.filter (fun r => decide (r.company = p))

/-- Search filter step of filterAndRender: applied only when the trimmed
search text is non-empty, keeping restaurants whose lower-cased name contains
the lower-cased trimmed term. -/
def applySearchFilter (term : String) (l : List Restaurant) : List Restaurant :=
  if term.trim = "" then l
  else l.filter (fun r => strIncludes r.name.toLower term.trim.toLower)

/-- Filtering pipeline of filterAndRender, in source order:
city, then provider, then name search. -/
def filterRestaurants (city provider term : String) (l : List Restaurant) :
    List Restaurant :=
  applySearchFilter term (applyProviderFilter provider (applyCityFilter city l))

/-- Parsed JSON body of a response; only the message field is relevant to the
error path (none models an absent or null field). -/
structure JsBody where
  message : Option String

/-- Response as seen by apiFetch after fetch resolves: the ok flag
(status in the success range), the numeric status, and the JSON body. -/
structure JsResponse where
  ok : Bool
  status : Nat
  body : JsBody

/-- Outcome of the underlying fetch call: either a response, or a transport
rejection (no connection), whose browser error message is
"Failed to fetch". -/
inductive FetchResult where
  | resp (r : JsResponse)
  | reject

/-- Browser message of a rejected fetch. -/
def failedToFetchMsg : String := "Failed to fetch"

/-- Fixed user-facing no-connection notification of apiFetch. -/
def noConnectionAlert : String := "Ei yhteyttä palvelimeen"

/-- Alert text shown by the catch block of apiFetch for an error message:
the fixed no-connection text when the message contains "Failed to fetch",
otherwise the message itself. -/
def alertFor (msg : String) : String :=
  if strIncludes msg failedToFetchMsg then noConnectionAlert else msg

/-- JS expression data.message || dflt: the message field when present and
truthy (non-empty), else the default. -/
def jsOrString (o : Option String) (dflt : String) : String :=
  match o with
  | some s => if s = "" then dflt else s
  | none => dflt

/-- Function apiFetch, modelled on its result and alert side effects: the
returned pair holds the settled value (parsed body, or the thrown error
message) and the list of alert popups raised.  A non-ok response throws
new Error(data.message || "HTTP <status>"); every caught error is alerted
once (through alertFor) and re-thrown. -/
def apiFetch : FetchResult → Except String JsBody × List String
  | FetchResult.reject => (Except.error failedToFetchMsg, [alertFor failedToFetchMsg])
  | FetchResult.resp r =>
    if r.ok then (Except.ok r.body, [])
    else
      let msg := jsOrString r.body.message ("HTTP " ++ toString r.status)
      (Except.error msg, [alertFor msg])

/-- Persistent key-value store entries read by loadAuth (none models a
missing key, for which localStorage.getItem returns null). -/
structure AuthStorage where
  token : Option String
  currentUser : Option String

/-- In-memory session state touched by loadAuth: the module-level token and
currentUser variables, and whether updateAuthUI has put the navigation into
its authenticated configuration. -/
structure AuthState where
  token : Option String
  currentUser : Option User
  authUIOn : Bool

/-- Truthiness of an optional string (null and the empty string are falsy). -/
def isTruthyStr : Option String → Bool
  | some s => !(decide (s = ""))
  | none => false

/-- Function loadAuth, run at startup, parameterized by the JSON.parse
platform primitive (parse returns none when the payload is not parseable,
modelling the exception caught by the source).  Returns the new state and
the console error log lines.  The token variable is always set from the
store; only when both entries are truthy is the user deserialized, and on
success updateAuthUI recomputes the authenticated-UI flag; a parse failure
only logs. -/
def loadAuth (parse : String → Option User) (store : AuthStorage)
    (st : AuthState) : AuthState × List String :=
  let st1 : AuthState := { st with token := store.token }
  match store.token, store.currentUser with
  | some tk, some stored =>
    if tk ≠ "" ∧ stored ≠ "" then
      match parse stored with
      | some u =>
        let st2 : AuthState := { st1 with currentUser := some u }
        ({ st2 with authUIOn := st2.currentUser.isSome && isTruthyStr st2.token }, [])
      | none => (st1, ["Invalid stored user data"])
    else (st1, [])
  | _, _ => (st1, [])

/-- String order used to model the argument-less JS Array.prototype.sort on
the derived city and provider option lists. -/
def strLe (a b : String) : Bool := decide (a ≤ b)

/-- Application state touched by fetchRestaurants: the module-level
restaurants list, the current user and location consulted by the render, the
list-container view, and the published filter option sets. -/
structure AppState where
  restaurants : List Restaurant
  currentUser : Option User
  userLocation : Option (ℝ × ℝ)
  listView : ListView
  cityOptions : List String
  providerOptions : List String

/-- Function populateFilters: sorted de-duplicated cities and companies
([...new Set(xs)].sort()). -/
def uniqueSorted (xs : List String) : List String :=
  sortLe strLe xs.eraseDups

/-- Function fetchRestaurants, parameterized by the settled result of the
apiFetch call for the full restaurant list.  It first shows the loading
indicator; on success it assigns the fetched list wholesale to the
restaurants variable, repopulates the filter option sets and re-renders; on
any failure it only replaces the list container with the error placeholder
(the Finnish loading-failed paragraph). -/
noncomputable def fetchRestaurants (st : AppState)
    (res : Except String (List Restaurant)) : AppState :=
  let st1 : AppState := { st with listView := ListView.loadingMsg }
  match res with
  | Except.ok rs =>
    let st2 : AppState :=
      { st1 with
        restaurants := rs
        cityOptions := uniqueSorted (rs.map (fun r => r.city))
        providerOptions := uniqueSorted (rs.map (fun r => r.company)) }
    { st2 with listView := renderRestaurants st2.currentUser st2.userLocation rs }
  | Except.error _ => { st1 with listView := ListView.errorMsg }

/-- Menu course item (name with optional diet codes and price). -/
structure Course where
  name : String
  diets : Option String
  price : Option String

/-- One day entry of a weekly menu response; courses is none when the field
is absent or null (falsy), some cs when present (Object.values of it). -/
structure MenuDay where
  date : Option String
  courses : Option (List Course)

/-- Weekly menu response shape. -/
structure WeeklyMenu where
  days : List MenuDay

/-- Chunking of showWeeklyMenu for the single-day response shape: with
chunk = Math.ceil(n / 5), bucket i (i = 0..4) is all.slice(i * chunk,
(i + 1) * chunk).  Math.ceil(n / 5) over naturals is (n + 4) / 5. -/
def weeklyBuckets (cs : List Course) : List (List Course) :=
  let chunk := (cs.length + 4) / 5
  (List.range 5).map (fun i => (cs.drop (i * chunk)).take chunk)

/-- Rendered shape of the weekly menu overlay: either the five synthetic
weekday buckets of the single-day branch, or the per-day rendering. -/
inductive WeeklyRender where
  | chunked (buckets : List (List Course))
  | perDay (days : List MenuDay)

/-- Function showWeeklyMenu, restricted to the choice between its two
response-shape branches: the chunked branch fires exactly when
week.days.length === 1 and week.days[0].courses is truthy. -/
def showWeeklyMenu (week : WeeklyMenu) : WeeklyRender :=
  match week.days with
  | [d] =>
    match d.courses with
    | some cs => WeeklyRender.chunked (weeklyBuckets cs)
    | none => WeeklyRender.perDay week.days
  | _ => WeeklyRender.perDay week.days

/-- Specification-level reading of claim C2: the rendered card order is
non-decreasing by haversine distance from the user location. -/
def nondecreasingByDistance (loc : ℝ × ℝ) (l : List Restaurant) : Prop :=
  l.Pairwise (fun a b => restDist loc a ≤ restDist loc b)

/-- Concrete restaurant without coordinates, used in witnesses. -/
def rB : Restaurant :=
  { _id := "b", name := "Beta", address := "Bstreet 2", city := "Espoo"
    company := "Prov", location := none }

/-- Concrete restaurant without coordinates whose id "a" is a favourite in
witnesses. -/
def rA : Restaurant :=
  { _id := "a", name := "Alpha", address := "Astreet 1", city := "Helsinki"
    company := "Prov", location := none }

/-- Concrete restaurant at the reference point (0, 0). -/
def rNear : Restaurant :=
  { _id := "near", name := "Near", address := "N 1", city := "Helsinki"
    company := "Prov", location := some ((0 : ℝ), (0 : ℝ)) }

/-- Concrete restaurant a quarter of the globe away from (0, 0), at
longitude 90 on the equator. -/
def rFar : Restaurant :=
  { _id := "far", name := "Far", address := "F 1", city := "Espoo"
    company := "Prov", location := some ((90 : ℝ), (0 : ℝ)) }

/-- Concrete restaurant with no coordinates, placed between the far and near
ones in the C2 counterexample. -/
def rNone : Restaurant :=
  { _id := "none", name := "NoCoords", address := "X 1", city := "Vantaa"
    company := "Prov", location := none }

/-- Concrete user whose favourite restaurant id is "a". -/
def uFav : User :=
  { username := "u", email := none, favouriteRestaurant := some "a", avatar := none }

/-- Concrete initial application state for the refresh witnesses. -/
def st0 : AppState :=
  { restaurants := [rA], currentUser := none, userLocation := none
    listView := ListView.loadingMsg, cityOptions := [], providerOptions := [] }

/-- Concrete 404 response with a server-supplied message. -/
def r404 : JsResponse := { ok := false, status := 404, body := { message := some "Not found" } }

/-- Concrete list of ten identical courses for the weekly-menu witnesses. -/
def cs10 : List Course := List.replicate 10 { name := "meal", diets := none, price := none }

/-- Concrete always-failing JSON parse, modelling a corrupt stored payload. -/
def parseNone : String → Option User := fun _ => none

/-- Concrete persistent store holding a token and a corrupt user payload. -/
def storeC9 : AuthStorage := { token := some "t", currentUser := some "oops" }

/-- Concrete startup session state (unauthenticated). -/
def authSt0 : AuthState := { token := none, currentUser := none, authUIOn := false }

/-! Generic lemmas about the stable sort model. -/

/-- Membership through stable insertion. -/
theorem mem_insertLe {α : Type} (le : α → α → Bool) (a x : α) (l : List α) :
    x ∈ insertLe le a l ↔ x = a ∨ x ∈ l := by
  induction l with
  | nil => simp [insertLe]
  | cons b t ih =>
    by_cases h : le a b = true
    · simp [insertLe, h]
    · simp [insertLe, h, ih]
      tauto

/-- Pairwise order of a stable insertion, relative to a transitive relation R
that agrees with the comparator on the elements involved. -/
theorem pairwise_insertLe {α : Type} (le : α → α → Bool) (R : α → α → Prop)
    (htrans : ∀ x y z, R x y → R y z → R x z) (a : α) (l : List α)
    (hcompat : ∀ b ∈ l, (le a b = true → R a b) ∧ (le a b = false → R b a))
    (hl : l.Pairwise R) : (insertLe le a l).Pairwise R := by
  induction l with
  | nil => simp [insertLe]
  | cons b t ih =>
    rcases List.pairwise_cons.mp hl with ⟨hbt, ht⟩
    by_cases h : le a b = true
    · simp only [insertLe, h, if_true]
      refine List.Pairwise.cons ?_ hl
      intro x hx
      rcases List.mem_cons.mp hx with hxb | hxt
      · rw [hxb]
        exact (hcompat b (List.mem_cons_self b t)).1 h
      · exact htrans a b x ((hcompat b (List.mem_cons_self b t)).1 h) (hbt x hxt)
    · have h' : le a b = false := Bool.eq_false_iff.mpr h
      simp only [insertLe, h', Bool.false_eq_true, if_false]
      refine List.Pairwise.cons ?_
        (ih (fun c hc => hcompat c (List.mem_cons_of_mem b hc)) ht)
      intro x hx
      rcases (mem_insertLe le a x t).mp hx with hxa | hxt
      · rw [hxa]
        exact (hcompat b (List.mem_cons_self b t)).2 h'
      · exact hbt x hxt

/-- Membership through the stable sort. -/
theorem mem_sortLe {α : Type} (le : α → α → Bool) (x : α) (l : List α) :
    x ∈ sortLe le l ↔ x ∈ l := by
  induction l with
  | nil => simp [sortLe]
  | cons b t ih => simp [sortLe, mem_insertLe, ih]

/-- Pairwise order of the stable sort, relative to a transitive relation R
that agrees with the comparator on the elements of the list. -/
theorem pairwise_sortLe {α : Type} (le : α → α → Bool) (R : α → α → Prop)
    (htrans : ∀ x y z, R x y → R y z → R x z) (l : List α)
    (hcompat : ∀ a ∈ l, ∀ b ∈ l, (le a b = true → R a b) ∧ (le a b = false → R b a)) :
    (sortLe le l).Pairwise R := by
  induction l with
  | nil => simp [sortLe]
  | cons x xs ih =>
    simp only [sortLe]
    refine pairwise_insertLe le R htrans x (sortLe le xs) ?_ ?_
    · intro b hb
      have hbxs : b ∈ xs := (mem_sortLe le b xs).mp hb
      exact hcompat x (List.mem_cons_self x xs) b (List.mem_cons_of_mem x hbxs)
    · exact ih (fun a ha b hb =>
        hcompat a (List.mem_cons_of_mem x ha) b (List.mem_cons_of_mem x hb))

/-- Stable insertion with the favourite-first comparator into a favourites
prefix followed by a non-favourites suffix. -/
theorem insertLe_favLe_append (f : String) (x : Restaurant) (A B : List Restaurant)
    (hA : ∀ a ∈ A, a._id = f) (hB : ∀ b ∈ B, b._id ≠ f) :
    insertLe (favLe f) x (A ++ B) =
      if decide (x._id = f) = true then x :: (A ++ B) else A ++ x :: B := by
  induction A with
  | nil =>
    simp only [List.nil_append]
    cases B with
    | nil => simp [insertLe]
    | cons b tB =>
      have hbf : b._id ≠ f := hB b (List.mem_cons_self b tB)
      have hle : favLe f x b = true := by simp [favLe, hbf]
      have hstep : insertLe (favLe f) x (b :: tB) =
          if favLe f x b then x :: b :: tB else b :: insertLe (favLe f) x tB := rfl
      rw [hstep, hle, if_pos rfl, ite_self]
  | cons a tA ihA =>
    have haf : a._id = f := hA a (List.mem_cons_self a tA)
    have hstep : insertLe (favLe f) x ((a :: tA) ++ B) =
        if favLe f x a then x :: a :: (tA ++ B)
        else a :: insertLe (favLe f) x (tA ++ B) := rfl
    rw [hstep]
    by_cases hx : decide (x._id = f) = true
    · have hle : favLe f x a = true := by
        simp only [favLe, hx, Bool.true_or]
      rw [hle, if_pos rfl, if_pos hx]
      rfl
    · have hx' : ¬ x._id = f := by simpa using hx
      have hle : favLe f x a = false := by simp [favLe, hx', haf]
      rw [hle]
      rw [if_neg (by simp : ¬ (false : Bool) = true)]
      rw [ihA (fun r hr => hA r (List.mem_cons_of_mem a hr))]
      rw [if_neg hx, if_neg hx]
      rfl

/-- Stable sort with the favourite-first comparator is exactly the stable
partition: favourites in input order, then the rest in input order. -/
theorem sortLe_favLe_partition (f : String) (l : List Restaurant) :
    sortLe (favLe f) l =
      l.filter (fun r => decide (r._id = f)) ++
        l.filter (fun r => !(decide (r._id = f))) := by
  induction l with
  | nil => rfl
  | cons x xs ih =>
    have hA : ∀ a ∈ xs.filter (fun r => decide (r._id = f)), a._id = f := by
      intro a ha
      exact of_decide_eq_true (List.mem_filter.mp ha).2
    have hB : ∀ b ∈ xs.filter (fun r => !(decide (r._id = f))), b._id ≠ f := by
      intro b hb
      have hb2 := (List.mem_filter.mp hb).2
      simpa using hb2
    simp only [sortLe, ih]
    rw [insertLe_favLe_append f x _ _ hA hB]
    by_cases hx : decide (x._id = f) = true
    · simp [List.filter_cons, hx]
    · have hx' : decide (x._id = f) = false := Bool.eq_false_iff.mpr hx
      simp [List.filter_cons, hx']

/-- Claim C1: for every input list and every authenticated current user whose
favourite-restaurant id occurs in the list, the rendered order places that
restaurant first regardless of location availability, and the relative order
of all other restaurants is preserved (the result is the stable partition of
the input with the favourites in front). -/
theorem renderRestaurants_favorite_first (u : Option User) (f : String)
    (loc : Option (ℝ × ℝ)) (l : List Restaurant)
    (hf : favOf u = some f) (hocc : ∃ r ∈ l, r._id = f) :
    (∃ r, (sortedForRender u loc l).head? = some r ∧ r._id = f) ∧
      sortedForRender u loc l =
        l.filter (fun r => decide (r._id = f)) ++
          l.filter (fun r => !(decide (r._id = f))) := by
  have hrender : sortedForRender u loc l = sortLe (favLe f) l := by
    unfold sortedForRender
    rw [hf]
  have hpart := sortLe_favLe_partition f l
  rw [hrender, hpart]
  refine ⟨?_, rfl⟩
  obtain ⟨r0, hr0mem, hr0id⟩ := hocc
  have hr0 : r0 ∈ l.filter (fun r => decide (r._id = f)) :=
    List.mem_filter.mpr ⟨hr0mem, by simp [hr0id]⟩
  cases hfp : l.filter (fun r => decide (r._id = f)) with
  | nil =>
    rw [hfp] at hr0
    exact absurd hr0 (List.not_mem_nil r0)
  | cons a t =>
    have ha : a ∈ l.filter (fun r => decide (r._id = f)) := by
      rw [hfp]; exact List.mem_cons_self a t
    have haid : a._id = f := of_decide_eq_true (List.mem_filter.mp ha).2
    exact ⟨a, rfl, haid⟩

/-- Witness for claim C1 at a concrete input: the user with favourite id "a"
and the two-element list [rB, rA] (no location). -/
theorem renderRestaurants_favorite_first_witness :
    favOf (some uFav) = some "a" ∧ (∃ r ∈ [rB, rA], r._id = "a") ∧
      (∃ r, (sortedForRender (some uFav) none [rB, rA]).head? = some r ∧ r._id = "a") ∧
      sortedForRender (some uFav) none [rB, rA] =
        [rB, rA].filter (fun r => decide (r._id = "a")) ++
          [rB, rA].filter (fun r => !(decide (r._id = "a"))) := by
  have h1 : favOf (some uFav) = some "a" := rfl
  have h2 : ∃ r ∈ [rB, rA], r._id = "a" :=
    ⟨rA, List.mem_cons_of_mem rB (List.mem_cons_self rA []), rfl⟩
  have h3 := renderRestaurants_favorite_first (some uFav) "a" none [rB, rA] h1 h2
  exact ⟨h1, h2, h3.1, h3.2⟩

/-- Claim C7: applying the city-equality predicate and then the
provider-equality predicate yields the same result list as the reverse
application, for every list and every pair of filter values. -/
theorem filter_city_provider_comm (c p : String) (l : List Restaurant) :
    applyProviderFilter p (applyCityFilter c l) =
      applyCityFilter c (applyProviderFilter p l) := by
  unfold applyCityFilter applyProviderFilter
  by_cases hc : c = ""
  · simp [hc]
  · by_cases hp : p = ""
    · simp [hc, hp]
    · simp [hc, hp]
      exact List.filter_congr (fun a _ => Bool.and_comm _ _)

/-! Analytic facts about the embedded haversine distance. -/

/-- Value of atan2 at the point (1, 0): the angle 0. -/
theorem atan2_zero_one : atan2 0 1 = 0 := by
  unfold atan2
  norm_num

/-- The intermediate haversine value vanishes at identical coordinates. -/
theorem havA_self (lat lon : ℝ) : havA lat lon lat lon = 0 := by
  unfold havA toRad
  simp

/-- The intermediate haversine value is symmetric in its two points. -/
theorem havA_comm (lat1 lon1 lat2 lon2 : ℝ) :
    havA lat1 lon1 lat2 lon2 = havA lat2 lon2 lat1 lon1 := by
  unfold havA toRad
  have h1 : Real.sin ((lat1 - lat2) * Real.pi / 180 / 2) =
      -Real.sin ((lat2 - lat1) * Real.pi / 180 / 2) := by
    rw [show (lat1 - lat2) * Real.pi / 180 / 2 =
      -((lat2 - lat1) * Real.pi / 180 / 2) by ring, Real.sin_neg]
  have h2 : Real.sin ((lon1 - lon2) * Real.pi / 180 / 2) =
      -Real.sin ((lon2 - lon1) * Real.pi / 180 / 2) := by
    rw [show (lon1 - lon2) * Real.pi / 180 / 2 =
      -((lon2 - lon1) * Real.pi / 180 / 2) by ring, Real.sin_neg]
  rw [h1, h2]
  ring

/-- The haversine distance from a point to itself is zero. -/
theorem haversine_self (lat lon : ℝ) : haversine lat lon lat lon = 0 := by
  unfold haversine
  rw [havA_self]
  norm_num [atan2_zero_one]

/-- The haversine distance is symmetric. -/
theorem haversine_comm (lat1 lon1 lat2 lon2 : ℝ) :
    haversine lat1 lon1 lat2 lon2 = haversine lat2 lon2 lat1 lon1 := by
  unfold haversine
  rw [havA_comm]

/-- Claim C8: for all coordinate pairs, the haversine distance with Earth
radius 6371 km satisfies distance(a, a) = 0 and distance(a, b) =
distance(b, a). -/
theorem haversine_zero_and_symm :
    (∀ lat lon : ℝ, haversine lat lon lat lon = 0) ∧
      (∀ lat1 lon1 lat2 lon2 : ℝ,
        haversine lat1 lon1 lat2 lon2 = haversine lat2 lon2 lat1 lon1) :=
  ⟨haversine_self, haversine_comm⟩

/-- Claim C2 (amended): whenever the current user has no truthy favourite,
the location is known, and every restaurant in the list carries coordinates,
the rendered order is non-decreasing by haversine distance from the
location. -/
theorem renderRestaurants_distance_sorted (u : Option User) (loc : ℝ × ℝ)
    (l : List Restaurant) (hu : favOf u = none)
    (hall : ∀ r ∈ l, r.location.isNone = false) :
    nondecreasingByDistance loc (sortedForRender u (some loc) l) := by
  have hrender : sortedForRender u (some loc) l = sortLe (distLe loc) l := by
    unfold sortedForRender
    rw [hu]
  rw [hrender]
  unfold nondecreasingByDistance
  refine pairwise_sortLe (distLe loc) (fun a b => restDist loc a ≤ restDist loc b)
    (fun x y z hxy hyz => le_trans hxy hyz) l ?_
  intro a ha b hb
  have ha' := hall a ha
  have hb' := hall b hb
  constructor
  · intro h
    simp only [distLe, ha', hb', Bool.false_or, decide_eq_true_eq] at h
    exact h
  · intro h
    simp only [distLe, ha', hb', Bool.false_or, decide_eq_false_iff_not] at h
    exact le_of_not_le h

/-- Witness for the amended claim C2 at a concrete input: the singleton list
[rNear] with location (0, 0) and no current user. -/
theorem renderRestaurants_distance_sorted_witness :
    favOf none = none ∧ (∀ r ∈ [rNear], r.location.isNone = false) ∧
      nondecreasingByDistance (0, 0) (sortedForRender none (some (0, 0)) [rNear]) := by
  have h1 : favOf none = none := rfl
  have h2 : ∀ r ∈ [rNear], r.location.isNone = false := by
    intro r hr
    rw [List.mem_singleton] at hr
    rw [hr]
    rfl
  exact ⟨h1, h2, renderRestaurants_distance_sorted none (0, 0) [rNear] h1 h2⟩

/-- Distance of the restaurant at the reference point from (0, 0). -/
theorem restDist_rNear : restDist (0, 0) rNear = 0 := by
  have h : restDist (0, 0) rNear = haversine 0 0 0 0 := rfl
  rw [h, haversine_self]

/-- Distance of the quarter-globe restaurant from (0, 0) is positive. -/
theorem restDist_rFar_pos : 0 < restDist (0, 0) rFar := by
  have h : restDist (0, 0) rFar = haversine 0 0 0 90 := rfl
  rw [h]
  have hA : havA 0 0 0 90 = 1 / 2 := by
    unfold havA toRad
    rw [show ((90 : ℝ) - 0) * Real.pi / 180 / 2 = Real.pi / 4 by ring]
    rw [Real.sin_pi_div_four]
    simp
    rw [div_pow, Real.sq_sqrt (by norm_num : (0:ℝ) ≤ 2)]
    norm_num
  unfold haversine
  rw [hA, show (1 : ℝ) - 1 / 2 = 1 / 2 by norm_num]
  have hx : (0 : ℝ) < Real.sqrt (1 / 2) := Real.sqrt_pos.mpr (by norm_num)
  have hatan : atan2 (Real.sqrt (1 / 2)) (Real.sqrt (1 / 2)) = Real.pi / 4 := by
    unfold atan2
    rw [if_pos hx, div_self (ne_of_gt hx), Real.arctan_one]
  rw [hatan]
  positivity

/-- Counterexample to claim C2 as stated: with no favourite and location
(0, 0), the input [rFar, rNone, rNear] (a distant restaurant, one without
coordinates, and one at the reference point) renders in its input order,
which is not non-decreasing by distance: the coordinate-less restaurant
compares equal to everything, so the sort never moves rNear ahead of rFar. -/
theorem renderRestaurants_distance_unsorted_cex :
    ¬ nondecreasingByDistance (0, 0)
        (sortedForRender none (some (0, 0)) [rFar, rNone, rNear]) := by
  intro h
  have hord : sortedForRender none (some (0, 0)) [rFar, rNone, rNear] =
      [rFar, rNone, rNear] := rfl
  rw [hord] at h
  unfold nondecreasingByDistance at h
  rcases List.pairwise_cons.mp h with ⟨hrel, _⟩
  have hFA : restDist (0, 0) rFar ≤ restDist (0, 0) rNear :=
    hrel rNear (by simp)
  rw [restDist_rNear] at hFA
  exact absurd hFA (not_le.mpr restDist_rFar_pos)

/-- Claim C3 (amended): a non-success response fails with the server-supplied
message field (when present and truthy) or with "HTTP <status>" when absent,
and triggers exactly one user-facing notification; the notification carries
that same message unless the message contains the substring
"Failed to fetch", in which case the fixed no-connection text is shown
instead. -/
theorem apiFetch_httpError (r : JsResponse) (hok : r.ok = false) :
    (∀ m, r.body.message = some m → m ≠ "" →
        apiFetch (FetchResult.resp r) = (Except.error m, [alertFor m]) ∧
          (strIncludes m failedToFetchMsg = false → alertFor m = m)) ∧
      (r.body.message = none →
        apiFetch (FetchResult.resp r) =
          (Except.error ("HTTP " ++ toString r.status),
            [alertFor ("HTTP " ++ toString r.status)])) := by
  constructor
  · intro m hm hne
    constructor
    · simp [apiFetch, hok, jsOrString, hm, hne]
    · intro hni
      simp [alertFor, hni]
  · intro hm
    simp [apiFetch, hok, jsOrString, hm]

/-- Witness for the amended claim C3 at the concrete scenario input: a
{ok: false, status: 404, body: {message: "Not found"}} response fails with
message exactly "Not found" and raises exactly the one alert "Not found". -/
theorem apiFetch_httpError_witness :
    apiFetch (FetchResult.resp r404) = (Except.error "Not found", ["Not found"]) := by
  have h := (apiFetch_httpError r404 rfl).1 "Not found" rfl (by decide)
  have halert : alertFor "Not found" = "Not found" := h.2 (by decide)
  rw [h.1, halert]

/-- Counterexample to claim C3 as stated: for the non-success response whose
server-supplied message is literally "Failed to fetch", the operation fails
with that message but the single notification shown is the fixed
no-connection text, not the same message. -/
theorem apiFetch_alert_substitution_cex :
    apiFetch (FetchResult.resp
        { ok := false, status := 500, body := { message := some failedToFetchMsg } }) =
      (Except.error failedToFetchMsg, [noConnectionAlert]) ∧
      noConnectionAlert ≠ failedToFetchMsg := by
  constructor
  · rfl
  · decide

/-- Claim C4: a transport-level failure of the underlying fetch makes
apiFetch fail, and the single user-facing notification it raises is the
fixed "Ei yhteyttä palvelimeen" text, a constant distinct from the thrown
transport message. -/
theorem apiFetch_networkError :
    apiFetch FetchResult.reject = (Except.error failedToFetchMsg, [noConnectionAlert]) ∧
      noConnectionAlert ≠ failedToFetchMsg := by
  constructor
  · rfl
  · decide

/-- Claim C5: a directory refresh replaces the in-memory restaurant list only
by the single wholesale assignment of the fetched result; on any failure the
prior list is left unchanged and the error placeholder is rendered in the
list view. -/
theorem fetchRestaurants_replace (st : AppState) (res : Except String (List Restaurant)) :
    (∀ rs, res = Except.ok rs → (fetchRestaurants st res).restaurants = rs) ∧
      (∀ e, res = Except.error e →
        (fetchRestaurants st res).restaurants = st.restaurants ∧
          (fetchRestaurants st res).listView = ListView.errorMsg) := by
  constructor
  · rintro rs rfl
    rfl
  · rintro e rfl
    exact ⟨rfl, rfl⟩

/-- Witness for claim C5 at a concrete input: a failing refresh on the state
st0 keeps its one-element restaurant list and renders the error
placeholder. -/
theorem fetchRestaurants_replace_witness :
    (fetchRestaurants st0 (Except.error "fail")).restaurants = st0.restaurants ∧
      (fetchRestaurants st0 (Except.error "fail")).listView = ListView.errorMsg :=
  (fetchRestaurants_replace st0 (Except.error "fail")).2 "fail" rfl

/-- Claim C6: a weekly-menu response with exactly one day entry carrying a
non-empty course list of n courses renders exactly five synthetic weekday
buckets, bucket i being the consecutive chunk all.slice(i * c, (i + 1) * c)
with c = ceil(n / 5) = (n + 4) / 5; in particular for n = 10 every bucket
holds 2 courses. -/
theorem showWeeklyMenu_chunked (d : MenuDay) (cs : List Course)
    (hd : d.courses = some cs) (hne : cs ≠ []) :
    ∃ bs, showWeeklyMenu { days := [d] } = WeeklyRender.chunked bs ∧
      bs.length = 5 ∧
      (∀ i, i < 5 → bs[i]? =
        some ((cs.drop (i * ((cs.length + 4) / 5))).take ((cs.length + 4) / 5))) ∧
      (cs.length = 10 → ∀ b ∈ bs, b.length = 2) := by
  refine ⟨weeklyBuckets cs, ?_, ?_, ?_, ?_⟩
  · simp [showWeeklyMenu, hd]
  · simp [weeklyBuckets]
  · intro i hi
    simp only [weeklyBuckets, List.getElem?_map, List.getElem?_range hi]
    rfl
  · intro h10 b hb
    simp only [weeklyBuckets, List.mem_map, List.mem_range] at hb
    obtain ⟨i, hi5, hbi⟩ := hb
    rw [← hbi, List.length_take, List.length_drop, h10]
    omega

/-- Witness for claim C6 at a concrete input: one day entry with the ten
courses of cs10 yields five buckets of two courses each. -/
theorem showWeeklyMenu_chunked_witness :
    ∃ bs, showWeeklyMenu { days := [{ date := none, courses := some cs10 }] } =
        WeeklyRender.chunked bs ∧
      bs.length = 5 ∧
      (∀ i, i < 5 → bs[i]? =
        some ((cs10.drop (i * ((cs10.length + 4) / 5))).take ((cs10.length + 4) / 5))) ∧
      (cs10.length = 10 → ∀ b ∈ bs, b.length = 2) :=
  showWeeklyMenu_chunked { date := none, courses := some cs10 } cs10 rfl (by simp [cs10])

/-- Flattening the first k chunks of size c recovers the first k * c
elements. -/
theorem flatten_chunks (cs : List Course) (c k : Nat) :
    ((List.range k).map (fun i => (cs.drop (i * c)).take c)).flatten =
      cs.take (k * c) := by
  induction k with
  | zero => simp
  | succ n ih =>
    rw [List.range_succ, List.map_append, List.flatten_append, ih]
    simp only [List.map_cons, List.map_nil, List.flatten_cons, List.flatten_nil,
      List.append_nil]
    rw [Nat.succ_mul, List.take_add]

/-- Flattening the five weekday buckets recovers the course list. -/
theorem weeklyBuckets_flatten (cs : List Course) : (weeklyBuckets cs).flatten = cs := by
  unfold weeklyBuckets
  rw [flatten_chunks]
  apply List.take_of_length_le
  omega

/-- Claim C10: for every non-empty course list chunked by the single-day
weekly-menu path into the five weekday buckets, the concatenation of the
five bucket slices in order equals the original course list (no loss, no
duplication, original order). -/
theorem showWeeklyMenu_chunks_flatten (d : MenuDay) (cs : List Course)
    (hd : d.courses = some cs) (hne : cs ≠ []) (bs : List (List Course))
    (hbs : showWeeklyMenu { days := [d] } = WeeklyRender.chunked bs) :
    bs.flatten = cs := by
  have hchunk : showWeeklyMenu { days := [d] } =
      WeeklyRender.chunked (weeklyBuckets cs) := by
    simp [showWeeklyMenu, hd]
  rw [hchunk] at hbs
  have hbs' : weeklyBuckets cs = bs := by
    injection hbs
  rw [← hbs']
  exact weeklyBuckets_flatten cs

/-- Witness for claim C10 at a concrete input: the ten courses of cs10. -/
theorem showWeeklyMenu_chunks_flatten_witness :
    (weeklyBuckets cs10).flatten = cs10 :=
  showWeeklyMenu_chunks_flatten { date := none, courses := some cs10 } cs10 rfl
    (by simp [cs10]) (weeklyBuckets cs10) rfl

/-- Claim C9: when session restore finds a stored token and a stored user
payload that does not parse, it fails silently with logging only (the
returned log holds the single console error line) and the session remains
unauthenticated: the current user stays none and the authenticated UI state
is not entered. -/
theorem loadAuth_corrupt (parse : String → Option User) (store : AuthStorage)
    (st : AuthState) (tk s : String)
    (htk : store.token = some tk) (htk1 : tk ≠ "")
    (hs : store.currentUser = some s) (hs1 : s ≠ "")
    (hbad : parse s = none)
    (hcu : st.currentUser = none) (hui : st.authUIOn = false) :
    (loadAuth parse store st).1.currentUser = none ∧
      (loadAuth parse store st).1.authUIOn = false ∧
      (loadAuth parse store st).2 = ["Invalid stored user data"] := by
  simp [loadAuth, htk, hs, htk1, hs1, hbad, hcu, hui]

/-- Witness for claim C9 at a concrete input: a stored token "t" and a
corrupt payload "oops" under the always-failing parse. -/
theorem loadAuth_corrupt_witness :
    (loadAuth parseNone storeC9 authSt0).1.currentUser = none ∧
      (loadAuth parseNone storeC9 authSt0).1.authUIOn = false ∧
      (loadAuth parseNone storeC9 authSt0).2 = ["Invalid stored user data"] :=
  loadAuth_corrupt parseNone storeC9 authSt0 "t" "oops" rfl (by decide) rfl (by decide)
    rfl rfl rfl
